import Mathlib

/-
Verification of the primitive-wrapper serialization layer, the duet session
orchestrator and the allow-list compatibility harness of this repository.
Python code is shallowly embedded: Python `int` becomes `Int`/`Nat`, absent
values become `Option`, raised exceptions become `Except`, and external
collaborators (network, signaling service, notebook stdout) become explicit
parameters.
-/

namespace PySyft

/-- Modelled from the spec: the UID type (`syft/core/common/uid.py` is not in
the sources). Per the spec a UID is "an opaque, globally-unique value ...
equality/hash delegate to the underlying identifier bytes"; the identifier
bytes are modelled as a natural number. -/
structure UID where
  value : Nat
deriving DecidableEq

/-- Modelled from the spec: the nested UID wire record ("id (nested UID
record)") carried by the primitive wire formats. -/
structure UIDProto where
  value : Nat
deriving DecidableEq

/-- Modelled from the spec: UID serialization, as invoked by
`serialize(obj=self.id)` and `self._id._object2proto()` in the sources. -/
def UID.serialize (u : UID) : UIDProto :=
  { value := u.value }

/-- Modelled from the spec: UID deserialization, as invoked by
`deserialize(blob=proto.id)` in the sources. -/
def UID.deserialize (p : UIDProto) : UID :=
  { value := p.value }

/-- The state of the `Range` wrapper (`syft/lib/python/range.py`): the
underlying `range(start, stop, step)` object plus the `_id` UID. The
`start`/`stop`/`step` accessors are plain field reads. -/
structure Range where
  start : Int
  stop : Int
  step : Int
  id : UID
deriving DecidableEq

/-- `Range.__init__` (range.py lines 35 to 41): when `stop` is not given the
single supplied value is treated as `stop` and `start` resets to 0; the
underlying `range` constructor rejects `step = 0` (ValueError), modelled as
`none`. -/
def Range.make (start : Int) (stop : Option Int) (step : Int) (id : UID) : Option Range :=
  let p : Int × Int :=
    match stop with
    | none => (0, start)
    | some s => (start, s)
  if step = 0 then none
  else some { start := p.1, stop := p.2, step := step, id := id }

/-- The `Slice` protobuf wire record (`proto/lib/python/slice_pb2`), the
schema registered for `Range`: integer fields defaulting to 0, companion
boolean flags defaulting to false, and a nested UID record (`none` = unset),
exactly as a freshly constructed `Slice_PB()` starts out. -/
structure SlicePB where
  start : Int := 0
  has_start : Bool := false
  stop : Int := 0
  has_stop : Bool := false
  step : Int := 0
  has_step : Bool := false
  id : Option UIDProto := none
deriving DecidableEq

/-- `Range._object2proto` (range.py lines 122 to 138): each of
start/stop/step is written, and its companion flag set, only under a Python
truthiness test (`if self.start:` and so on), i.e. only when the value is
nonzero; the UID is always copied into the record. -/
def Range.object2proto (r : Range) : SlicePB :=
  let pb : SlicePB := {}
  let pb := if r.start ≠ 0 then { pb with start := r.start, has_start := true } else pb
  let pb := if r.stop ≠ 0 then { pb with stop := r.stop, has_stop := true } else pb
  let pb := if r.step ≠ 0 then { pb with step := r.step, has_step := true } else pb
  { pb with id := some (UID.serialize r.id) }

/-- Modelled from the spec: the `Slice` wrapper class
(`syft/lib/python/slice.py` is not in the sources). Its constructor, invoked
by `Range._proto2object` as `Slice(start=..., stop=..., step=..., id=...)`,
stores the three optional components and the UID ("reconstructs
start/stop/step (each defaulting to absent if its flag is unset), and
returns a fully-formed wrapper"). -/
structure Slice where
  start : Option Int
  stop : Option Int
  step : Option Int
  id : UID
deriving DecidableEq

/-- Result of a primitive decode, recording which wrapper class constructor
the decode path invoked: the `Range` class or the distinct `Slice` class. -/
inductive DecodedPrimitive where
  | rangeObj (r : Range)
  | sliceObj (s : Slice)
deriving DecidableEq

/-- `Range._proto2object` (range.py lines 140 to 160): deserializes the UID,
reads each of start/stop/step under its presence flag (leaving it `None`
otherwise), and builds the result by calling the `Slice` class constructor
imported from `.slice`. A record whose UID field is unset makes the
`deserialize` call fail. -/
def Range.proto2object (proto : SlicePB) : Except String DecodedPrimitive := do
  let idp ← match proto.id with
    | some p => Except.ok p
    | none => Except.error "invalid uid"
  let id_ := UID.deserialize idp
  let start := if proto.has_start then some proto.start else none
  let stop := if proto.has_stop then some proto.stop else none
  let step := if proto.has_step then some proto.step else none
  Except.ok (DecodedPrimitive.sliceObj { start := start, stop := stop, step := step, id := id_ })

/-- The `_SyNotImplemented` wrapper (`syft/lib/python/not_implemented.py`):
an envelope carrying only its `_id` UID. -/
structure SyNotImplementedObj where
  id : UID
deriving DecidableEq

/-- The Not-Implemented wire record (`proto/lib/python/not_implemented_pb2`):
one field, the nested UID record (`none` = unset). -/
structure NotImplementedPB where
  id : Option UIDProto := none
deriving DecidableEq

/-- Result of decoding a Not-Implemented record: either the bare
`NotImplemented` sentinel or a rebuilt envelope. -/
inductive NIDecodeResult where
  | sentinel
  | envelope (e : SyNotImplementedObj)
deriving DecidableEq

/-- `_SyNotImplemented._object2proto` (not_implemented.py lines 54 to 57):
copies the serialized UID into the record. -/
def SyNotImplementedObj.object2proto (e : SyNotImplementedObj) : NotImplementedPB :=
  { id := some (UID.serialize e.id) }

/-- `_SyNotImplemented._proto2object` (not_implemented.py lines 59 to 71):
deserializes the UID, rebuilds the envelope `de_not_impl`, prints a
diagnostic stack trace, then discards the envelope and returns the raw
`NotImplemented` sentinel (the `return de_not_impl` line is commented out). -/
def SyNotImplementedObj.proto2object (proto : NotImplementedPB) : Except String NIDecodeResult := do
  let idp ← match proto.id with
    | some p => Except.ok p
    | none => Except.error "invalid uid"
  let not_impl_id := UID.deserialize idp
  let _de_not_impl : SyNotImplementedObj := { id := not_impl_id }
  Except.ok NIDecodeResult.sentinel

/-- Claim C1: the claim says encoding a Range whose stop was explicitly set
to 0 produces a record with `has_stop = true`. The code disagrees: this
theorem evaluates `Range._object2proto` at the failing input
`Range(start=5, stop=0)` (step 1) and shows the truthiness test
`if self.stop:` leaves the presence flag false and the field unset, so an
explicit zero is encoded exactly like an absent field. -/
theorem range_stop_zero_encodes_has_stop_false (uid : UID) :
    Range.make 5 (some 0) 1 uid = some { start := 5, stop := 0, step := 1, id := uid }
    ∧ (Range.object2proto { start := 5, stop := 0, step := 1, id := uid }).has_stop = false
    ∧ (Range.object2proto { start := 5, stop := 0, step := 1, id := uid }).stop = 0 := by
  refine ⟨rfl, ?_, ?_⟩ <;> rfl

/-- Claim C3: decoding a well-formed Not-Implemented wire record (UID field
present) never fails: it reconstructs the UID, discards the rebuilt
envelope, and returns the raw `NotImplemented` sentinel, not a re-wrapped
envelope. -/
theorem not_implemented_decode_returns_sentinel (proto : NotImplementedPB)
    (h : proto.id.isSome = true) :
    SyNotImplementedObj.proto2object proto = Except.ok NIDecodeResult.sentinel := by
  cases hid : proto.id with
  | none => rw [hid] at h; simp at h
  | some p =>
    unfold SyNotImplementedObj.proto2object
    rw [hid]
    rfl

/-- Witness for claim C3 at the concrete record whose UID bytes are 7. -/
theorem not_implemented_decode_returns_sentinel_witness :
    (({ id := some { value := 7 } } : NotImplementedPB)).id.isSome = true
    ∧ SyNotImplementedObj.proto2object { id := some { value := 7 } }
        = Except.ok NIDecodeResult.sentinel :=
  ⟨rfl, not_implemented_decode_returns_sentinel { id := some { value := 7 } } rfl⟩

/-- Claim C4: encoding the Range built from start=2, stop=8, step=2 and
decoding the resulting wire record does not fail and yields an object whose
start, stop and step are 2, 8 and 2 and whose identifier is present and
valid (the record carries the serialized UID and the decoded object carries
the round-tripped UID itself). -/
theorem range_roundtrip_2_8_2 (uid : UID) :
    Range.make 2 (some 8) 2 uid = some { start := 2, stop := 8, step := 2, id := uid }
    ∧ (Range.object2proto { start := 2, stop := 8, step := 2, id := uid }).id
        = some (UID.serialize uid)
    ∧ Range.proto2object (Range.object2proto { start := 2, stop := 8, step := 2, id := uid })
        = Except.ok (DecodedPrimitive.sliceObj
            { start := some 2, stop := some 8, step := some 2, id := uid }) := by
  refine ⟨rfl, rfl, ?_⟩
  rfl

/-- Whether a decode result is shaped by the `Range` class constructor. -/
def DecodedPrimitive.isRangeShaped : DecodedPrimitive → Bool
  | DecodedPrimitive.rangeObj _ => true
  | DecodedPrimitive.sliceObj _ => false

/-- Whether a decode succeeded and produced a `Range`-class result. -/
def decodeIsRangeShaped : Except String DecodedPrimitive → Bool
  | Except.ok d => d.isRangeShaped
  | Except.error _ => false

/-- Claim C2 counterexample: the claim says decoding any Range wire record
constructs a Range-shaped wrapper, the "Slice" name being only a return
annotation. Refuted at the concrete wire record for start=2, stop=8, step=2
with UID bytes 7: the decode path invokes the distinct `Slice` class
constructor, so the result is not Range-shaped. -/
theorem range_decode_not_range_shaped_cex :
    decodeIsRangeShaped (Range.proto2object
      { start := 2, has_start := true, stop := 8, has_stop := true,
        step := 2, has_step := true, id := some { value := 7 } }) = false := by
  rfl

/-- Claim C2 (amended): for every Range wire record whose UID field is
present, decoding builds its result with the separate `Slice` class
constructor — a Slice object, not a Range-shaped wrapper — with each of
start, stop and step reconstructed from the record only when its presence
flag is set and left absent otherwise, and the UID deserialized from the
record. -/
theorem range_decode_constructs_slice (proto : SlicePB) (idp : UIDProto)
    (h : proto.id = some idp) :
    Range.proto2object proto = Except.ok (DecodedPrimitive.sliceObj
      { start := if proto.has_start then some proto.start else none,
        stop := if proto.has_stop then some proto.stop else none,
        step := if proto.has_step then some proto.step else none,
        id := UID.deserialize idp }) := by
  unfold Range.proto2object
  rw [h]
  rfl

/-- Witness for the amended claim C2 at a concrete wire record. -/
theorem range_decode_constructs_slice_witness :
    (({ start := 2, has_start := true, stop := 8, has_stop := true,
        step := 2, has_step := true, id := some { value := 7 } } : SlicePB)).id
        = some { value := 7 }
    ∧ Range.proto2object
        { start := 2, has_start := true, stop := 8, has_stop := true,
          step := 2, has_step := true, id := some { value := 7 } }
        = Except.ok (DecodedPrimitive.sliceObj
            { start := some 2, stop := some 8, step := some 2, id := { value := 7 } }) :=
  ⟨rfl,
    range_decode_constructs_slice
      { start := 2, has_start := true, stop := 8, has_stop := true,
        step := 2, has_step := true, id := some { value := 7 } }
      { value := 7 } rfl⟩

/-- `get_available_network` (duet/__init__.py lines 60 to 69), with the two
network effects made explicit: `network_addr` is the candidate list fetched
from the fixed repository URL, and `probe url = true` means the
`requests.get` of that url returned (any response) rather than raising. The
loop probes each candidate's `/metadata` endpoint in order and returns the
first candidate address; if the list is exhausted it raises. -/
def get_available_network (network_addr : List String) (probe : String → Bool) :
    Except String String :=
  match network_addr with
  | [] => Except.error "Couldn\x27t find any available network."
  | addr :: rest =>
    if probe (addr ++ "/metadata") then Except.ok addr
    else get_available_network rest probe

/-- Modelled from the spec: the `bcolors` ANSI escape constants
(`duet/bcolors.py` is not in the sources); the status renderer needs the
bold, highlight (FAIL) and reset (ENDC) codes. -/
def bcolors.BOLD : String := "\x1b[1m"

/-- Modelled from the spec: the ANSI reset code. -/
def bcolors.ENDC : String := "\x1b[0m"

/-- Modelled from the spec: the ANSI highlight (red) code. -/
def bcolors.FAIL : String := "\x1b[91m"

/-- `counterThread.run` blink computation (duet/__init__.py line 113):
`blink_on = (int(iterator / 5) % 2) == 0` with a nonnegative tick counter. -/
def blink_on (iterator : Nat) : Bool :=
  (iterator / 5) % 2 == 0

/-- `counterThread.run` (duet/__init__.py lines 115 to 124): the four
decoration strings (left blink glyph, right blink glyph, left color, right
color) wrapped around the Requests field. -/
def requestsDecoration (iterator n_requests : Nat) :
    String × String × String × String :=
  if blink_on iterator && decide (n_requests > 0) then
    (bcolors.BOLD ++ ">" ++ bcolors.ENDC, bcolors.BOLD ++ "<" ++ bcolors.ENDC,
      bcolors.FAIL, bcolors.ENDC)
  else
    (" ", " ", "", "")

/-- `counterThread.run` (duet/__init__.py lines 126 to 129): the phase
glyph. -/
def statusGlyph (iterator : Nat) : String :=
  if blink_on iterator then "*" else "-"

/-- `counterThread.run` (duet/__init__.py lines 131 to 148): the status
line `out` built on one tick from the tick counter and the node's four
counters, including the trailing padding spaces. -/
def renderStatus (iterator n_objects n_requests n_messages n_request_handlers : Nat) :
    String :=
  let d := requestsDecoration iterator n_requests
  let left_blink := d.1
  let right_blink := d.2.1
  let left_color := d.2.2.1
  let right_color := d.2.2.2
  let star := statusGlyph iterator
  "♫♫♫ > DUET LIVE STATUS  " ++ star ++ "  Objects: " ++ toString n_objects ++ "  "
    ++ left_color ++ "Requests:" ++ right_color ++ left_blink ++ toString n_requests
    ++ right_blink ++ "  Messages: " ++ toString n_messages
    ++ "  Request Handlers: " ++ toString n_request_handlers
    ++ "                                "

/-- `begin_duet_logger` (duet/__init__.py lines 155 to 156): the counter
thread is started only when `sys.stdout` has a `parent_header` attribute;
returns whether the thread was started. -/
def begin_duet_logger_starts (stdout_has_parent_header : Bool) : Bool :=
  stdout_has_parent_header

/-- The kind of credential exchanger instance (`duet/exchange_ids.py`
classes; callers may also pass any other `DuetCredentialExchanger`). -/
inductive ExchangerKind where
  | manualInput
  | tokenFile
  | custom (name : String)
deriving DecidableEq

/-- An operation invoked on a credential exchanger, in invocation order. -/
inductive ExchEvent where
  | setResponderId (id : String)
  | setRole (join : Bool)
  | runWith (credential : String)
deriving DecidableEq

/-- The observable state of a `DuetCredentialExchanger`: its concrete kind,
the responder id and role installed on it, and the ordered trace of
operations invoked on it. -/
structure DuetCredentialExchanger where
  kind : ExchangerKind
  responder_id : Option String := none
  join : Bool := false
  trace : List ExchEvent := []
deriving DecidableEq

/-- A fresh `OpenGridTokenFileExchanger()` instance. -/
def OpenGridTokenFileExchanger.new : DuetCredentialExchanger :=
  { kind := ExchangerKind.tokenFile }

/-- A fresh `OpenGridTokenManualInputExchanger()` instance (the default
`credential_exchanger` argument of `launch_duet` and `join_duet`). -/
def OpenGridTokenManualInputExchanger.new : DuetCredentialExchanger :=
  { kind := ExchangerKind.manualInput }

/-- `DuetCredentialExchanger.set_responder_id`: installs a known target id
on the strategy. -/
def DuetCredentialExchanger.set_responder_id (e : DuetCredentialExchanger)
    (id : String) : DuetCredentialExchanger :=
  { e with responder_id := some id, trace := e.trace ++ [ExchEvent.setResponderId id] }

/-- `DuetCredentialExchanger.set_role`: marks the strategy's role and
returns the strategy itself (enabling the `.set_role(join=True).run(...)`
chain in `join_duet`). -/
def DuetCredentialExchanger.set_role (e : DuetCredentialExchanger)
    (join : Bool) : DuetCredentialExchanger :=
  { e with join := join, trace := e.trace ++ [ExchEvent.setRole join] }

/-- The external collaborators of the orchestrator, made explicit: the
discovery candidate list and probe outcome (network), `register` mapping a
network url to the signaling session's duet id, `runResult` giving the
target id an exchanger's `run` obtains (human/file/network I/O), and
whether `sys.stdout` carries a `parent_header` attribute. -/
structure DuetEnv where
  addrs : List String
  probe : String → Bool
  register : String → String
  runResult : DuetCredentialExchanger → String → String
  has_parent_header : Bool

/-- `DuetCredentialExchanger.run`: runs the strategy on a credential and
obtains a target id; the I/O outcome comes from the environment. -/
def DuetCredentialExchanger.run (env : DuetEnv) (e : DuetCredentialExchanger)
    (credential : String) : DuetCredentialExchanger × String :=
  ({ e with trace := e.trace ++ [ExchEvent.runWith credential] }, env.runResult e credential)

/-- A local computation node (`Domain(name=..., db_path=...)`). -/
structure Domain where
  name : String
  db_path : Option String := none
deriving DecidableEq

/-- The client handle; modelled from the spec: `Domain.get_root_client` is
not in the sources, and per the spec it returns "the node's root client
handle (a typed remote-access object)" for that node. -/
structure Client where
  domain_name : String
deriving DecidableEq

/-- A `WebRTCDuet(node=..., target_id=..., signaling_client=..., offer=...)`
peer transport handle, keeping the constructor arguments the orchestrator
passes. -/
structure WebRTCDuet where
  node : Domain
  target_id : String
  offer : Bool
deriving DecidableEq

/-- Everything observable about one `launch_duet` call: the returned client
handle plus the constructed node, the exchanger actually used (with its
final state and trace), the exchanged target id, the transport handle, and
whether the status reporter thread was started. -/
structure LaunchResult where
  client : Client
  domain : Domain
  exchanger : DuetCredentialExchanger
  target_id : String
  webrtc : WebRTCDuet
  reporter_started : Bool
deriving DecidableEq

/-- Everything observable about one `join_duet` call: the returned transport
handle plus the constructed node and the exchanger actually used. -/
structure JoinResult where
  duet : WebRTCDuet
  domain : Domain
  exchanger : DuetCredentialExchanger
  target_id : String
deriving DecidableEq

/-- `launch_duet` (duet/__init__.py lines 293 to 349), with logging banners
dropped and external effects routed through `env`: resolve the network url
(discovery when the caller passed a falsy url), register to obtain the
session's duet id, build the "Launcher" domain, force the file-based token
exchanger when `loopback` is set, run the exchanger on the duet id, open
the transport with `offer=True`, take the root client, and start the status
reporter only when `logging` is set and the stdout object has a
`parent_header` attribute. -/
def launch_duet_at (env : DuetEnv) (logging : Bool) (url : String)
    (loopback : Bool) (credential_exchanger : DuetCredentialExchanger)
    (db_path : Option String) : LaunchResult :=
  let duet_id := env.register url
  let my_domain : Domain := { name := "Launcher", db_path := db_path }
  let ex := if loopback then OpenGridTokenFileExchanger.new else credential_exchanger
  let r := DuetCredentialExchanger.run env ex duet_id
  let ex := r.1
  let target_id := r.2
  let webrtc : WebRTCDuet := { node := my_domain, target_id := target_id, offer := true }
  let out_duet : Client := { domain_name := my_domain.name }
  let reporter := logging && begin_duet_logger_starts env.has_parent_header
  { client := out_duet, domain := my_domain, exchanger := ex,
    target_id := target_id, webrtc := webrtc, reporter_started := reporter }

/-- `launch_duet` proper: resolve the network url first (discovery only when
the caller passed a falsy url, lines 315 to 316), then the rest of the
workflow. -/
def launch_duet (env : DuetEnv) (logging : Bool) (network_url : String)
    (loopback : Bool) (credential_exchanger : DuetCredentialExchanger)
    (db_path : Option String) : Except String LaunchResult := do
  let url ← if network_url = "" then get_available_network env.addrs env.probe
            else Except.ok network_url
  Except.ok (launch_duet_at env logging url loopback credential_exchanger db_path)

/-- `join_duet` (duet/__init__.py lines 352 to 406), with logging banners
dropped and external effects routed through `env`: resolve the network url,
register to obtain the session's duet id, build the "Joiner" domain; when
`loopback` is set replace the exchanger with a fresh file-based token
exchanger, otherwise install the caller-supplied target id on the strategy
with `set_responder_id`; then mark the strategy with the join role, run it
on the duet id to obtain the final target id, and open the transport with
`offer=False`, returning it. -/
def join_duet_at (env : DuetEnv) (target_id : String) (url : String)
    (loopback : Bool) (credential_exchanger : DuetCredentialExchanger) :
    JoinResult :=
  let duet_id := env.register url
  let my_domain : Domain := { name := "Joiner" }
  let ex := if loopback then OpenGridTokenFileExchanger.new
            else credential_exchanger.set_responder_id target_id
  let r := DuetCredentialExchanger.run env (ex.set_role true) duet_id
  let ex := r.1
  let final_target_id := r.2
  let duet : WebRTCDuet := { node := my_domain, target_id := final_target_id, offer := false }
  { duet := duet, domain := my_domain, exchanger := ex, target_id := final_target_id }

/-- `join_duet` proper: resolve the network url first (discovery only when
the caller passed a falsy url, lines 373 to 374), then the rest of the
workflow. -/
def join_duet (env : DuetEnv) (target_id : String) (network_url : String)
    (loopback : Bool) (credential_exchanger : DuetCredentialExchanger) :
    Except String JoinResult := do
  let url ← if network_url = "" then get_available_network env.addrs env.probe
            else Except.ok network_url
  Except.ok (join_duet_at env target_id url loopback credential_exchanger)

/-- Claim C5: discovery probes each candidate's metadata endpoint in list
order and returns the first candidate whose probe responds — in particular,
when the first candidate's probe fails and the second's succeeds, the second
candidate's address is returned — and when no candidate responds it raises
the network-unavailable failure instead of returning, with no retry. -/
theorem network_discovery_first_responder :
    (∀ (a1 a2 : String) (rest : List String) (probe : String → Bool),
      probe (a1 ++ "/metadata") = false → probe (a2 ++ "/metadata") = true →
        get_available_network (a1 :: a2 :: rest) probe = Except.ok a2)
    ∧ (∀ (l : List String) (probe : String → Bool),
      (∀ a ∈ l, probe (a ++ "/metadata") = false) →
        get_available_network l probe
          = Except.error "Couldn\x27t find any available network.") := by
  constructor
  · intro a1 a2 rest probe h1 h2
    unfold get_available_network
    rw [h1]
    unfold get_available_network
    rw [h2]
    rfl
  · intro l probe h
    induction l with
    | nil => rfl
    | cons a rest ih =>
      unfold get_available_network
      rw [h a (List.mem_cons_self a rest)]
      exact ih fun b hb => h b (List.mem_cons_of_mem a hb)

/-- Witness for claim C5: with candidates ["a", "b"] and only "b/metadata"
responding, discovery returns "b"; with candidate ["a"] and nothing
responding, discovery fails. -/
theorem network_discovery_first_responder_witness :
    get_available_network ["a", "b"] (fun s => s == "b/metadata") = Except.ok "b"
    ∧ get_available_network ["a"] (fun _ => false)
        = Except.error "Couldn\x27t find any available network." :=
  ⟨network_discovery_first_responder.1 "a" "b" [] (fun s => s == "b/metadata")
      (by decide) (by decide),
    network_discovery_first_responder.2 ["a"] (fun _ => false)
      (fun a _ => rfl)⟩

/-- Claim C6: whenever the loopback flag is set, both `launch_duet` and
`join_duet` replace the caller-supplied exchanger with the file-based token
exchanger; and in `join_duet` without loopback, the caller-supplied target
id is first installed on the strategy with `set_responder_id`, then the
strategy is marked with the join role, and only then run with the session's
duet id. -/
theorem duet_exchanger_selection :
    (∀ (env : DuetEnv) (logging : Bool) (network_url : String)
        (supplied : DuetCredentialExchanger) (db_path : Option String),
      network_url ≠ "" →
      ∃ res, launch_duet env logging network_url true supplied db_path = Except.ok res
        ∧ res.exchanger.kind = ExchangerKind.tokenFile)
    ∧ (∀ (env : DuetEnv) (target_id network_url : String)
        (supplied : DuetCredentialExchanger),
      network_url ≠ "" →
      ∃ res, join_duet env target_id network_url true supplied = Except.ok res
        ∧ res.exchanger.kind = ExchangerKind.tokenFile)
    ∧ (∀ (env : DuetEnv) (target_id network_url : String)
        (supplied : DuetCredentialExchanger),
      network_url ≠ "" →
      ∃ res, join_duet env target_id network_url false supplied = Except.ok res
        ∧ res.exchanger.kind = supplied.kind
        ∧ res.exchanger.trace = supplied.trace
            ++ [ExchEvent.setResponderId target_id, ExchEvent.setRole true,
                ExchEvent.runWith (env.register network_url)]) := by
  refine ⟨?_, ?_, ?_⟩
  · intro env logging network_url supplied db_path h
    refine ⟨launch_duet_at env logging network_url true supplied db_path, ?_, ?_⟩
    · unfold launch_duet
      rw [if_neg h]
      rfl
    · rfl
  · intro env target_id network_url supplied h
    refine ⟨join_duet_at env target_id network_url true supplied, ?_, ?_⟩
    · unfold join_duet
      rw [if_neg h]
      rfl
    · rfl
  · intro env target_id network_url supplied h
    refine ⟨join_duet_at env target_id network_url false supplied, ?_, ?_, ?_⟩
    · unfold join_duet
      rw [if_neg h]
      rfl
    · rfl
    · simp [join_duet_at, DuetCredentialExchanger.run, DuetCredentialExchanger.set_role,
        DuetCredentialExchanger.set_responder_id]

/-- Concrete environment used by the orchestrator witnesses: no discovery
candidates, registration yields duet id "did", every exchanger returns its
credential unchanged, and stdout has no parent_header attribute. -/
def envW : DuetEnv :=
  { addrs := [], probe := fun _ => false, register := fun _ => "did",
    runResult := fun _ c => c, has_parent_header := false }

/-- Witness for claim C6 at a concrete environment, url "u" and target id
"t", with the manual-input exchanger supplied. -/
theorem duet_exchanger_selection_witness :
    (∃ res, launch_duet envW true "u" true OpenGridTokenManualInputExchanger.new none
        = Except.ok res ∧ res.exchanger.kind = ExchangerKind.tokenFile)
    ∧ (∃ res, join_duet envW "t" "u" true OpenGridTokenManualInputExchanger.new
        = Except.ok res ∧ res.exchanger.kind = ExchangerKind.tokenFile)
    ∧ (∃ res, join_duet envW "t" "u" false OpenGridTokenManualInputExchanger.new
        = Except.ok res
        ∧ res.exchanger.kind = OpenGridTokenManualInputExchanger.new.kind
        ∧ res.exchanger.trace = OpenGridTokenManualInputExchanger.new.trace
            ++ [ExchEvent.setResponderId "t", ExchEvent.setRole true,
                ExchEvent.runWith (envW.register "u")]) :=
  ⟨duet_exchanger_selection.1 envW true "u" OpenGridTokenManualInputExchanger.new none
      (by decide),
    duet_exchanger_selection.2.1 envW "t" "u" OpenGridTokenManualInputExchanger.new
      (by decide),
    duet_exchanger_selection.2.2 envW "t" "u" OpenGridTokenManualInputExchanger.new
      (by decide)⟩

/-- Claim C9: on every status tick the phase glyph is "*" exactly when the
blink phase `floor(tick/5) mod 2` is in its "on" value and "-" otherwise;
the Requests field is wrapped in bold bracket glyphs with the highlight
color exactly when the blink phase is on and at least one request is
pending, and otherwise the brackets collapse to plain spaces; and the
rendered line places those decorations around the Requests count. -/
theorem status_blink_rendering :
    (∀ iterator : Nat,
      statusGlyph iterator = if (iterator / 5) % 2 = 0 then "*" else "-")
    ∧ (∀ iterator n_requests : Nat,
      requestsDecoration iterator n_requests =
        if (iterator / 5) % 2 = 0 ∧ 1 ≤ n_requests then
          (bcolors.BOLD ++ ">" ++ bcolors.ENDC, bcolors.BOLD ++ "<" ++ bcolors.ENDC,
            bcolors.FAIL, bcolors.ENDC)
        else (" ", " ", "", ""))
    ∧ (∀ it no nr nm nh : Nat,
      renderStatus it no nr nm nh =
        "♫♫♫ > DUET LIVE STATUS  " ++ statusGlyph it ++ "  Objects: "
          ++ toString no ++ "  "
          ++ (requestsDecoration it nr).2.2.1 ++ "Requests:"
          ++ (requestsDecoration it nr).2.2.2
          ++ (requestsDecoration it nr).1 ++ toString nr
          ++ (requestsDecoration it nr).2.1
          ++ "  Messages: " ++ toString nm ++ "  Request Handlers: " ++ toString nh
          ++ "                                ") := by
  refine ⟨?_, ?_, ?_⟩
  · intro it
    by_cases h : (it / 5) % 2 = 0 <;> simp [statusGlyph, blink_on, h]
  · intro it nr
    by_cases h1 : (it / 5) % 2 = 0 <;> by_cases h2 : 1 ≤ nr <;>
      simp [requestsDecoration, blink_on, h1, h2, Nat.lt_of_lt_of_le, Nat.pos_iff_ne_zero] <;>
      omega
  · intro it no nr nm nh
    rfl

/-- Python `str.split` with a one-character separator, over character
lists: splitting the empty string yields one empty chunk, and every
separator occurrence starts a new chunk. -/
def pySplit (sep : Char) : List Char → List (List Char)
  | [] => [[]]
  | c :: rest =>
    let r := pySplit sep rest
    if c = sep then [] :: r
    else
      match r with
      | h :: t => (c :: h) :: t
      | [] => [[c]]

/-- Whether the pattern (first argument) starts the text (second
argument). -/
def charsStartWith : List Char → List Char → Bool
  | [], _ => true
  | _ :: _, [] => false
  | p :: ps, c :: cs => p == c && charsStartWith ps cs

/-- Whether the pattern occurs contiguously somewhere in the text. -/
def charsContain (pat : List Char) : List Char → Bool
  | [] => charsStartWith pat []
  | c :: cs => charsStartWith pat (c :: cs) || charsContain pat cs

/-- Python `sub in msg` substring containment. -/
def pyContains (msg sub : String) : Bool :=
  charsContain sub.toList msg.toList

/-- The kinds of error a replayed allow-list call can raise, as
distinguished by the except clauses of `test_allowlist`
(allowlist_test.py lines 84 to 97): `RuntimeError`, `FileNotFoundError`,
`ModuleNotFoundError` and `KeyError` each with their message, and any other
exception. -/
inductive ReplayError where
  | runtimeError (msg : String)
  | fileNotFoundError (msg : String)
  | moduleNotFoundError (msg : String)
  | keyError
  | otherError (msg : String)
deriving DecidableEq

/-- The except clauses of the datasets branch of `test_allowlist`
(allowlist_test.py lines 82 to 97): true when the branch swallows the
raised error (the matching assert passes, or the error is a KeyError),
false when the error escapes every clause or an assert fails. -/
def datasetsBranchTolerates : ReplayError → Bool
  | ReplayError.runtimeError m =>
      pyContains m "not found" || pyContains m "not present in the root directory"
        || pyContains m "does not exist"
  | ReplayError.fileNotFoundError m =>
      pyContains m "No such file or directory" || pyContains m "cannot find the path"
  | ReplayError.moduleNotFoundError m => pyContains m "No module named"
  | ReplayError.keyError => true
  | ReplayError.otherError _ => false

/-- One iteration of the `test_allowlist` loop (allowlist_test.py lines 73
to 101) for the entry `item`: `hasParams` is `item in TEST_PARAMS.keys()`,
`versionOK` is `version_supported(allowlist[item])`, and `replay` is the
outcome of `exec(item + TEST_PARAMS[item])` (`none` = succeeded). Returns
whether this iteration fails the test. -/
def allowlistEntryFails (item : String) (hasParams versionOK : Bool)
    (replay : Option ReplayError) : Bool :=
  let arr := pySplit '.' item.toList
  if arr.get? 1 = some ("datasets".toList) ∧ arr.length ≤ 3
      ∧ hasParams = true ∧ versionOK = true then
    match replay with
    | none => false
    | some e => !(datasetsBranchTolerates e)
  else if hasParams = true ∧ versionOK = true then
    replay.isSome
  else
    false

/-- `version.parse` on a dotted numeric version string, modelled for the
release-number versions the allow-list uses: split on dots, read each chunk
as a decimal number. -/
def version_parse (s : String) : List Nat :=
  (pySplit '.' s.toList).map
    (fun cs => cs.foldl (fun acc c => acc * 10 + (c.toNat - 48)) 0)

/-- `packaging` version comparison on parsed release numbers: lexicographic
with implicit zero-padding of the shorter version. -/
def versionLe : List Nat → List Nat → Bool
  | [], [] => true
  | [], b :: bs => if 0 < b then true else versionLe [] bs
  | a :: as, [] => if 0 < a then false else versionLe as []
  | a :: as, b :: bs => if a < b then true else if b < a then false else versionLe as bs

/-- A support descriptor from the allow-list: either a bare string or a
dict, of which `version_supported` only consults the optional
"min_version" key. -/
inductive SupportDescriptor where
  | bare (s : String)
  | structured (min_version : Option String)
deriving DecidableEq

/-- `version_supported` (allowlist_test.py lines 42 to 48): a bare string
descriptor is always supported; a dict without a "min_version" key is
always supported; otherwise the installed torchvision version is compared
against the parsed minimum. -/
def version_supported (installed : List Nat) (d : SupportDescriptor) : Bool :=
  match d with
  | SupportDescriptor.bare _ => true
  | SupportDescriptor.structured none => true
  | SupportDescriptor.structured (some mv) => versionLe (version_parse mv) installed

/-- Claim C7: for an allow-list entry with a matching test-parameter entry
and a satisfied version requirement (and a dotted path, as Python indexes
the second segment): if the second dotted segment is "datasets" and the
path has at most three segments, a replay failure is tolerated exactly when
it is a runtime error whose message contains "not found", "not present in
the root directory" or "does not exist", a missing-file error containing
"No such file or directory" or "cannot find the path", a missing-module
error containing "No module named", or a plain key-lookup failure; any
other error kind, and any error outside that datasets shape, fails the
test. -/
theorem allowlist_dataset_error_tolerance (item : String) (e : ReplayError)
    (hlen : 2 ≤ (pySplit '.' item.toList).length) :
    (((pySplit '.' item.toList).get? 1 = some ("datasets".toList)
        ∧ (pySplit '.' item.toList).length ≤ 3) →
      (allowlistEntryFails item true true (some e) = false ↔
        ((∃ m, e = ReplayError.runtimeError m
            ∧ (pyContains m "not found" = true
              ∨ pyContains m "not present in the root directory" = true
              ∨ pyContains m "does not exist" = true))
          ∨ (∃ m, e = ReplayError.fileNotFoundError m
            ∧ (pyContains m "No such file or directory" = true
              ∨ pyContains m "cannot find the path" = true))
          ∨ (∃ m, e = ReplayError.moduleNotFoundError m
            ∧ pyContains m "No module named" = true)
          ∨ e = ReplayError.keyError)))
    ∧ (¬((pySplit '.' item.toList).get? 1 = some ("datasets".toList)
          ∧ (pySplit '.' item.toList).length ≤ 3) →
      allowlistEntryFails item true true (some e) = true) := by
  constructor
  · intro hds
    unfold allowlistEntryFails
    rw [if_pos ⟨hds.1, hds.2, rfl, rfl⟩]
    cases e <;> simp [datasetsBranchTolerates]
    all_goals
      simp only [Bool.eq_false_iff]
      tauto
  · intro hnot
    unfold allowlistEntryFails
    rw [if_neg (fun hc => hnot ⟨hc.1, hc.2.1⟩), if_pos ⟨rfl, rfl⟩]
    rfl

/-- Witness for claim C7: the entry "torchvision.datasets" raising a
missing-module error whose message contains "No module named" is tolerated
(both parts of the theorem instantiated, the second at the non-datasets
entry "torchvision.transforms.functional.to_tensor" raising the same
error). -/
theorem allowlist_dataset_error_tolerance_witness :
    allowlistEntryFails "torchvision.datasets" true true
      (some (ReplayError.moduleNotFoundError "No module named torch")) = false
    ∧ allowlistEntryFails "torchvision.transforms.functional.to_tensor" true true
      (some (ReplayError.moduleNotFoundError "No module named torch")) = true :=
  ⟨((allowlist_dataset_error_tolerance "torchvision.datasets"
        (ReplayError.moduleNotFoundError "No module named torch")
        (by decide)).1 (by decide)).mpr
      (Or.inr (Or.inr (Or.inl ⟨"No module named torch", rfl, by decide⟩))),
    (allowlist_dataset_error_tolerance "torchvision.transforms.functional.to_tensor"
        (ReplayError.moduleNotFoundError "No module named torch")
        (by decide)).2 (by decide)⟩

/-- Claim C8: a bare-string support descriptor is unconditionally
satisfied; a descriptor carrying a minimum version is satisfied exactly
when the installed torchvision version is greater than or equal to that
minimum. -/
theorem version_supported_spec (installed : List Nat) :
    (∀ s, version_supported installed (SupportDescriptor.bare s) = true)
    ∧ (∀ mv, version_supported installed (SupportDescriptor.structured (some mv)) = true
        ↔ versionLe (version_parse mv) installed = true) :=
  ⟨fun _ => rfl, fun _ => Iff.rfl⟩

/-- Claim C10: `begin_duet_logger` starts the reporter thread only when the
stdout object has a `parent_header` attribute; when that attribute is
absent, `launch_duet` with logging enabled starts no reporter thread and
still returns the root client handle of the "Launcher" domain normally. -/
theorem logger_requires_parent_header :
    (∀ b : Bool, begin_duet_logger_starts b = true → b = true)
    ∧ (∀ (env : DuetEnv) (network_url : String) (loopback : Bool)
        (supplied : DuetCredentialExchanger) (db_path : Option String),
      network_url ≠ "" → env.has_parent_header = false →
      launch_duet env true network_url loopback supplied db_path
          = Except.ok (launch_duet_at env true network_url loopback supplied db_path)
        ∧ (launch_duet_at env true network_url loopback supplied db_path).reporter_started
            = false
        ∧ (launch_duet_at env true network_url loopback supplied db_path).client
            = { domain_name := "Launcher" }) := by
  constructor
  · intro b h
    exact h
  · intro env network_url loopback supplied db_path h hph
    refine ⟨?_, ?_, rfl⟩
    · unfold launch_duet
      rw [if_neg h]
      rfl
    · unfold launch_duet_at
      simp [begin_duet_logger_starts, hph]

/-- Witness for claim C10 at the concrete environment `envW` (whose stdout
has no `parent_header`) and url "u". -/
theorem logger_requires_parent_header_witness :
    launch_duet envW true "u" false OpenGridTokenManualInputExchanger.new none
        = Except.ok (launch_duet_at envW true "u" false
            OpenGridTokenManualInputExchanger.new none)
      ∧ (launch_duet_at envW true "u" false
          OpenGridTokenManualInputExchanger.new none).reporter_started = false
      ∧ (launch_duet_at envW true "u" false
          OpenGridTokenManualInputExchanger.new none).client
          = { domain_name := "Launcher" } :=
  logger_requires_parent_header.2 envW "u" false OpenGridTokenManualInputExchanger.new
    none (by decide) rfl

end PySyft
